import Mathlib

/-!
Verification of the chemical identity resolution and property computation
engine of the invizone repository.  Python strings are modelled as
`List Char`; machine integers as `Nat`/`Int`; fallible code as `Option` /
`Except`.  The MD5 digest used by the synthetic registry-number generator
is kept abstract as a function `List Char → List Char`: every theorem that
needs a property of the digest (it is 32 lowercase hexadecimal characters)
carries it as an explicit hypothesis.
-/

/-- Python `str.strip()`: drop whitespace from both ends. -/
def pyStrip (cs : List Char) : List Char :=
  ((cs.dropWhile Char.isWhitespace).reverse.dropWhile Char.isWhitespace).reverse

/-- Python `str.isdigit()` on ASCII strings: non-empty and all digits. -/
def pyIsDigit (cs : List Char) : Bool :=
  !cs.isEmpty && cs.all Char.isDigit

/-- Python `str.split('-')`: split at every hyphen, keeping empty segments
(`"".split('-') == [""]`). -/
def splitDash : List Char → List (List Char)
  | [] => [[]]
  | c :: t =>
    if c = '-' then [] :: splitDash t
    else
      match splitDash t with
      | [] => [[c]]
      | g :: gs => (c :: g) :: gs

/-- Join segments with hyphens; left inverse of `splitDash`. -/
def joinDash : List (List Char) → List Char
  | [] => []
  | [g] => g
  | g :: gs => g ++ '-' :: joinDash gs

/-- Matcher for the anchored registry-number regular-expression family
`^\d{lo,hi}-\d{2}-\d$` (the only regex shape the repository uses for
registry numbers).  The character class `\d` cannot match `'-'`, so the
greedy maximal-munch scan below is exactly the regex semantics on
newline-free ASCII strings. -/
def casScan (lo hi : Nat) (cs : List Char) : Bool :=
  let a := cs.takeWhile Char.isDigit
  match cs.dropWhile Char.isDigit with
  | '-' :: t1 =>
    let b := t1.takeWhile Char.isDigit
    match t1.dropWhile Char.isDigit with
    | '-' :: t2 =>
      let c := t2.takeWhile Char.isDigit
      decide (lo ≤ a.length) && decide (a.length ≤ hi) &&
        (b.length == 2) && (c.length == 1) && (t2.dropWhile Char.isDigit).isEmpty
    | _ => false
  | _ => false

/-- `CASService._is_valid_cas` (src/backend/app/services/cas_service.py):
`re.match(r'^\d{1,7}-\d{2}-\d$', cas_string)` after rejecting empty input. -/
def is_valid_cas (cs : List Char) : Bool :=
  !cs.isEmpty && casScan 1 7 cs

/-- `_validate_cas_format` (src/backend/app/utils/chemical_utils.py):
split on `'-'`, require exactly three all-digit parts, first and middle
parts at least two characters, last part exactly one. -/
def validate_cas_format (cs : List Char) : Bool :=
  match splitDash cs with
  | [a, b, c] =>
    if pyIsDigit a && pyIsDigit b && pyIsDigit c then
      if a.length < 2 || b.length < 2 || c.length ≠ 1 then false else true
    else false
  | _ => false

/-- ASCII hexadecimal digit (the characters Python `int(s, 16)` accepts in
an MD5 hex digest). -/
def isHexChar (c : Char) : Bool :=
  c.isDigit || ('a' ≤ c && c ≤ 'f') || ('A' ≤ c && c ≤ 'F')

/-- Value of one hexadecimal digit (0 for other characters; only applied
under an `isHexChar` guard). -/
def hexDigitVal (c : Char) : Nat :=
  if c.isDigit then c.toNat - '0'.toNat
  else if 'a' ≤ c && c ≤ 'f' then c.toNat - 'a'.toNat + 10
  else if 'A' ≤ c && c ≤ 'F' then c.toNat - 'A'.toNat + 10
  else 0

/-- Python `int(s, 16)` on a plain hex-digit string. -/
def hexVal (cs : List Char) : Nat :=
  cs.foldl (fun a c => 16 * a + hexDigitVal c) 0

/-- Whether Python `int(s, 16)` succeeds on a plain slice of a hex digest:
non-empty and all hex digits (prefix/sign/whitespace forms never occur in a
digest slice). -/
def pyIntHexOk (cs : List Char) : Bool :=
  !cs.isEmpty && cs.all isHexChar

/-- A well-formed 32-character hexadecimal MD5 digest. -/
def isHexDigest (cs : List Char) : Bool :=
  cs.length == 32 && cs.all isHexChar

/-- Decimal digit characters of `n`, most significant first (Python
`str(n)` for natural `n`). -/
def natDecChars (n : Nat) : List Char :=
  if n = 0 then ['0'] else ((Nat.digits 10 n).map Nat.digitChar).reverse

/-- Python `f"{n:0wd}"`: decimal form of `n` left-padded with zeros to
width `w`. -/
def pyFormatPad (w n : Nat) : List Char :=
  List.replicate (w - (natDecChars n).length) '0' ++ natDecChars n

/-- The pseudo-CAS string `_generate_fallback_cas` builds from an MD5 hex
digest `h`:
`f"{int(h[:6],16) % 1000000:06d}-{int(h[6:8],16) % 100:02d}-{int(h[8:9],16) % 10}"`. -/
def fallbackCasChars (h : List Char) : List Char :=
  pyFormatPad 6 (hexVal (h.take 6) % 1000000) ++
    '-' :: pyFormatPad 2 (hexVal ((h.drop 6).take 2) % 100) ++
    '-' :: natDecChars (hexVal ((h.drop 8).take 1) % 10)

/-- The result dictionaries of `CASService`: optional CAS number plus the
provenance fields each source sets. -/
structure CasResult where
  cas_number : Option (List Char)
  source : String
  confidence : Option String := none
  note : Option String := none
  cid : Option Nat := none
  inchi_key : Option (List Char) := none
deriving Repr, DecidableEq

/-- The PubChem interaction `_try_pubchem` performs, abstracted over the
network: whether the property POST or the synonym GET raises, their status
codes, the first entry of `PropertyTable.Properties`, and the synonym
list. -/
structure PubWorld where
  postRaises : Bool
  postStatus : Nat
  props : List (Option Nat × Option (List Char))
  synRaises : Bool
  synStatus : Nat
  synonyms : List (List Char)

/-- Python truthiness of the `CID` field: present and non-zero. -/
def cidTruthy : Option Nat → Bool
  | some n => n ≠ 0
  | none => false

/-- `CASService._try_pubchem`: POST the SMILES for CID/InChIKey, GET the
synonym list, return the first synonym passing `_is_valid_cas` with
confidence `high`; every failure path (exception, non-200, empty data)
returns `{"cas_number": None, "source": "pubchem"}`. -/
def try_pubchem (w : PubWorld) (_smiles : List Char) : CasResult :=
  if w.postRaises then { cas_number := none, source := "pubchem" }
  else if w.postStatus = 200 then
    match w.props with
    | [] => { cas_number := none, source := "pubchem" }
    | (cid, ik) :: _ =>
      if cidTruthy cid then
        if w.synRaises then { cas_number := none, source := "pubchem" }
        else if w.synStatus = 200 then
          match w.synonyms.filter is_valid_cas with
          | [] => { cas_number := none, source := "pubchem" }
          | c :: _ =>
            { cas_number := some c, source := "pubchem", confidence := some "high",
              cid := cid, inchi_key := ik }
        else { cas_number := none, source := "pubchem" }
      else { cas_number := none, source := "pubchem" }
  else { cas_number := none, source := "pubchem" }

/-- `CASService._try_chemspider`: the API key is hard-coded `None`, so it
always returns `{"cas_number": None, "source": "chemspider"}`. -/
def try_chemspider (_smiles : List Char) : CasResult :=
  { cas_number := none, source := "chemspider" }

/-- `CASService._try_nist`: the body is a `pass` inside try/except; it
always returns `{"cas_number": None, "source": "nist"}`. -/
def try_nist (_smiles : List Char) : CasResult :=
  { cas_number := none, source := "nist" }

/-- `CASService._try_opsin`: whatever OPSIN answers, every branch falls
through to `{"cas_number": None, "source": "opsin"}`. -/
def try_opsin (_smiles : List Char) : CasResult :=
  { cas_number := none, source := "opsin" }

/-- `CASService._generate_fallback_cas`, with the MD5 hexdigest supplied by
the abstract `md5` function.  When every `int(·, 16)` conversion succeeds
(always, for a real 32-hex-character digest) it returns the formatted
pseudo-CAS with confidence `very_low`; the except branch returns
`{"cas_number": None, "source": "internal_fallback"}`. -/
def generate_fallback_cas (md5 : List Char → List Char) (smiles : List Char) : CasResult :=
  if pyIntHexOk ((md5 smiles).take 6) && pyIntHexOk (((md5 smiles).drop 6).take 2) &&
      pyIntHexOk (((md5 smiles).drop 8).take 1) then
    { cas_number := some (fallbackCasChars (md5 smiles)), source := "internal_fallback",
      confidence := some "very_low",
      note := some "Generated internally - verify with external sources" }
  else { cas_number := none, source := "internal_fallback" }

/-- Python truthiness of `result.get("cas_number")`. -/
def casTruthy : Option (List Char) → Bool
  | some c => !c.isEmpty
  | none => false

/-- The `for source_method in self.sources` loop of `get_cas_from_smiles`:
a raising source (`Except.error`) is caught and skipped; a result whose
`cas_number` is falsy is skipped; the first truthy result is returned; the
exhausted chain returns `{"cas_number": None, "source": "none",
"confidence": "low"}`. -/
def chainLoop (smiles : List Char) : List (List Char → Except String CasResult) → CasResult
  | [] => { cas_number := none, source := "none", confidence := some "low" }
  | f :: rest =>
    match f smiles with
    | .error _ => chainLoop smiles rest
    | .ok r => if casTruthy r.cas_number then r else chainLoop smiles rest

/-- Lift a non-raising source into the chain. -/
def okSource (f : List Char → CasResult) : List Char → Except String CasResult :=
  fun s => .ok (f s)

/-- A source that raises on every input. -/
def raisingSource (e : String) : List Char → Except String CasResult :=
  fun _ => .error e

/-- `CASService.get_cas_from_smiles`: empty or whitespace-only input
returns the low-confidence empty record at once; otherwise the stripped
SMILES runs down the fixed source chain. -/
def get_cas_from_smiles (md5 : List Char → List Char) (w : PubWorld)
    (smiles : List Char) : CasResult :=
  if smiles.isEmpty || (pyStrip smiles).isEmpty then
    { cas_number := none, source := "none", confidence := some "low" }
  else
    chainLoop (pyStrip smiles)
      [okSource (try_pubchem w), okSource try_chemspider, okSource try_nist,
        okSource try_opsin, okSource (generate_fallback_cas md5)]

/-- `canonicalize_smiles` (chemical_utils.py): the placeholder
implementation returns `smiles.strip()`; the except branch is unreachable. -/
def canonicalize_smiles (smiles : List Char) : Option (List Char) :=
  some (pyStrip smiles)

/-!
The name-guess tables.  Every pattern in them is built from literal
characters (letters, digits, `=`, `#`), grouping parentheses, and an
optional trailing `$` anchor — no alternation, quantifier or class.  For
this fragment, Python `re.search(pattern, s)` on newline-free strings is:
drop the parentheses (a group of literals matches exactly its literal
content), then test the remaining literal as a suffix (anchored) or
substring (unanchored) of `s`.
-/

/-- `p` occurs as a contiguous sublist of the second argument. -/
def infixOfB (p : List Char) : List Char → Bool
  | [] => p.isEmpty
  | c :: t => p.isPrefixOf (c :: t) || infixOfB p t

/-- `re.search` for the literal-plus-groups-plus-`$` regex fragment used by
the name-guess tables. -/
def reSearch (pattern : String) (s : List Char) : Bool :=
  let p := pattern.data.filter (fun c => c ≠ '(' && c ≠ ')')
  match p.getLast? with
  | some '$' => p.dropLast.isSuffixOf s
  | _ => infixOfB p s

/-- The ordered pattern table of `_guess_compound_name_from_smiles`
(chemical_utils.py, specific compounds first, then functional groups). -/
def chemUtilsNamePatterns : List (String × String) :=
  [("CCO$", "Ethanol"),
   ("CC(=O)O$", "Acetic Acid"),
   ("CC(=O)Oc1ccccc1C(=O)O$", "Aspirin"),
   ("CN1C=NC2=C1C(=O)N(C(=O)N2C)C$", "Caffeine"),
   ("c1ccccc1$", "Benzene"),
   ("C1CCCCC1$", "Cyclohexane"),
   ("O=C=O$", "Carbon Dioxide"),
   ("C#N$", "Hydrogen Cyanide"),
   ("CCCCCC$", "Hexane"),
   ("CCOC(=O)C$", "Ethyl Acetate"),
   ("CC(N)C$", "Isopropylamine"),
   ("C(=O)OC", "Ester"),
   ("C(=O)N", "Amide"),
   ("C(=O)O", "Carboxylic Acid"),
   ("NC(=O)", "Amide"),
   ("Oc1ccccc1", "Phenol"),
   ("Cc1ccccc1", "Toluene Derivative")]

/-- `_guess_compound_name_from_smiles` (chemical_utils.py): first matching
pattern wins, `None` when nothing matches. -/
def guess_compound_name_from_smiles (smiles : List Char) : Option String :=
  (chemUtilsNamePatterns.find? (fun pr => reSearch pr.1 smiles)).map (·.2)

/-- The ordered pattern table of `PubChemService._guess_compound_name`
(pubchem_service.py). -/
def pubchemNamePatterns : List (String × String) :=
  [("CCO$", "Ethanol"),
   ("CC(=O)O$", "Acetic Acid"),
   ("CC(=O)Oc1ccccc1C(=O)O$", "Aspirin"),
   ("CN1C=NC2=C1C(=O)N(C(=O)N2C)C$", "Caffeine"),
   ("c1ccccc1$", "Benzene"),
   ("C1CCCCC1$", "Cyclohexane"),
   ("O=C=O$", "Carbon Dioxide"),
   ("C#N$", "Hydrogen Cyanide"),
   ("CCCCCC$", "Hexane"),
   ("CCOC(=O)C$", "Ethyl Acetate"),
   ("CC(N)C$", "Isopropylamine")]

/-- Python `sub in s` on our string model. -/
def pyIn (sub : String) (s : List Char) : Bool :=
  infixOfB sub.data s

/-- `PubChemService._guess_compound_name`: the regex table first, then the
literal-substring functional-group chain. -/
def pubchem_guess_compound_name (smiles : List Char) : Option String :=
  match pubchemNamePatterns.find? (fun pr => reSearch pr.1 smiles) with
  | some pr => some pr.2
  | none =>
    if pyIn "C(=O)O" smiles && pyIn "c1ccccc1" smiles then some "Benzoic Acid Derivative"
    else if pyIn "C(=O)O" smiles then some "Carboxylic Acid"
    else if pyIn "C(=O)N" smiles then some "Amide"
    else if pyIn "N" smiles && pyIn "C=O" smiles then some "Amide Compound"
    else if pyIn "Oc1ccccc1" smiles then some "Phenol Derivative"
    else if pyIn "c1ccccc1" smiles then some "Aromatic Compound"
    else if pyIn "C#C" smiles then some "Alkyne"
    else if pyIn "C=C" smiles then some "Alkene"
    else none

/-!
The layout of src/backend/app/services/molecular_service.py.  The module
contains `class MolecularService` at indentation 0 (line 7) followed by
these `def` statements, listed here with their column offsets exactly as
in the file.  Python's block structure then determines where each def
lands: the class suite is the maximal run of following defs with positive
indentation; a def at indentation 0 is module level; the defs that follow
it with positive indentation are locals of its body.
-/

/-- The `def` statements of molecular_service.py after the `class
MolecularService` header, as (column offset, name) in file order. -/
def molecularModuleDefs : List (Nat × String) :=
  [(4, "__init__"),
   (4, "_initialize_rdkit"),
   (0, "calculate_molecular_properties"),
   (4, "_calculate_properties_fallback"),
   (4, "optimize_structure"),
   (4, "validate_structure"),
   (4, "convert_format"),
   (4, "get_compound_summary")]

/-- The defs in the suite of `class MolecularService`: the maximal initial
run with positive indentation (the class ends at the first def back at
column 0). -/
def classBodyDefs : List String :=
  (molecularModuleDefs.takeWhile (fun p => 0 < p.1)).map (·.2)

/-- The module-level defs of molecular_service.py (column 0). -/
def moduleLevelDefs : List String :=
  (molecularModuleDefs.filter (fun p => p.1 = 0)).map (·.2)

/-- The defs nested inside the body of the first module-level def: the run
of positively indented defs that follows it. -/
def nestedInFirstModuleDef : List String :=
  (((molecularModuleDefs.dropWhile (fun p => 0 < p.1)).drop 1).takeWhile
    (fun p => 0 < p.1)).map (·.2)

/-- The attributes `__init__`/`_initialize_rdkit` store on the
`molecular_service` instance (the toolkit handles only when the import
succeeds; a superset is sound for the negative lookups proved below). -/
def molecularInstanceAttrs : List String :=
  ["rdkit_available", "Chem", "AllChem", "Descriptors", "Draw", "MolToInchi",
   "MolToInchiKey", "InchiToMol", "CalcExactMolWt", "CalcMolFormula"]

/-- Python attribute resolution on the `molecular_service` instance:
instance `__dict__` first, then the class body; `none` means
`AttributeError`. -/
def molecularServiceAttr (name : String) : Option Unit :=
  if molecularInstanceAttrs.contains name || classBodyDefs.contains name then some ()
  else none

/-- Exceptions the modelled endpoints raise. -/
inductive PyExc where
  | httpExc (status : Nat) (detail : String)
  | attrError (obj attr : String)
deriving Repr, DecidableEq

/-- Evaluation of `molecular_service.<name>(arg)`: attribute lookup first;
a missing attribute raises `AttributeError` before any code of the method
could run, for every argument. -/
def invokeMolecularService (name : String) (_arg : List Char) : Except PyExc Unit :=
  match molecularServiceAttr name with
  | none => .error (.attrError "MolecularService" name)
  | some _ => .ok ()

/-- What the `/calculate-properties` endpoint hands back. -/
inductive ApiResp where
  | success (smiles : List Char)
  | httpError (status : Nat) (detail : String)
deriving Repr, DecidableEq

/-- `str(e)` of the exceptions the endpoint's `except Exception` catches
(modelled up to the exact Python rendering). -/
def excMessage : PyExc → String
  | .httpExc _ d => d
  | .attrError obj attr => obj ++ " object has no attribute " ++ attr

/-- The try-block of the `/calculate-properties` endpoint
(src/backend/app/api/molecular.py): validate non-empty input (raising
`HTTPException(400, ...)`), clean the SMILES, then call
`molecular_service.calculate_molecular_properties(clean_smiles)` — whose
attribute lookup is the first evaluation step.  The branch where the
attribute exists would run the toolkit and is not modelled further; it is
proved unreachable below. -/
def apiCalcTryBody (smiles : List Char) : Except PyExc ApiResp :=
  if smiles.isEmpty || (pyStrip smiles).isEmpty then
    .error (.httpExc 400 "SMILES string is required")
  else
    let clean := pyStrip (smiles.filter (fun c => c ≠ '\\'))
    match molecularServiceAttr "calculate_molecular_properties" with
    | none => .error (.attrError "MolecularService" "calculate_molecular_properties")
    | some _ => .ok (.success clean)

/-- The `/calculate-properties` endpoint: the try-block wrapped in `except
Exception as e: raise HTTPException(500, str(e))`. -/
def api_calculate_molecular_properties (smiles : List Char) : ApiResp :=
  match apiCalcTryBody smiles with
  | .ok v => v
  | .error e => .httpError 500 (excMessage e)

/-!
`_calculate_properties_fallback` (molecular_service.py).  All Python
numbers on this path are exact: the atom counts are ints, the estimated
weight is an int, and `round(int, ndigits)` returns the int unchanged, so
rationals model the arithmetic faithfully.
-/

/-- Count of non-overlapping occurrences of `"Cl"` (Python
`smiles.count('Cl')`). -/
def countCl : List Char → Nat
  | 'C' :: 'l' :: t => countCl t + 1
  | _ :: t => countCl t
  | [] => 0

/-- Python `round(x)`: round half to even (banker's rounding), exact on
rationals. -/
def pyRoundHalfEven (q : ℚ) : ℤ :=
  let f := ⌊q⌋
  if q - f < 1 / 2 then f
  else if q - f > 1 / 2 then f + 1
  else if f % 2 = 0 then f else f + 1

/-- Python `round(x, k)` for `k ≥ 0` on exact values. -/
def pyRoundTo (k : Nat) (q : ℚ) : ℚ :=
  (pyRoundHalfEven (q * 10 ^ k) : ℚ) / 10 ^ k

/-- Decimal characters of a Python int. -/
def intDecChars (z : ℤ) : List Char :=
  if z < 0 then '-' :: natDecChars z.natAbs else natDecChars z.natAbs

/-- One `formula_parts` entry: `f"X{n}" if n > 1 else "X"`. -/
def formulaPart (sym : Char) (n : ℤ) : List Char :=
  if 1 < n then sym :: intDecChars n else [sym]

/-- The property dictionary `_calculate_properties_fallback` returns. -/
structure FallbackProps where
  canonical_smiles : List Char
  molecular_formula : List Char
  molecular_weight : ℚ
  inchi : List Char
  inchikey : List Char
  logp : ℚ
  tpsa : ℚ
  hydrogen_bond_donors : Nat
  hydrogen_bond_acceptors : Nat
  rotatable_bonds : Nat
  heavy_atom_count : ℤ
  formal_charge : ℤ
  atom_count : ℤ
  ring_count : Nat
  aromatic_rings : Nat
  calculation_source : String
  note : String
deriving Repr, DecidableEq

/-- The carbon count of the fallback estimator:
`smiles.count('C') - smiles.count('Cl')` (a Python int). -/
def fallbackCarbonCount (smiles : List Char) : ℤ :=
  (smiles.count 'C' : ℤ) - (countCl smiles : ℤ)

/-- The integer weight estimate
`carbon*12 + hydrogen*1 + oxygen*16 + nitrogen*14`. -/
def fallbackBaseWeight (smiles : List Char) : ℤ :=
  fallbackCarbonCount smiles * 12 + (smiles.count 'H' : ℤ) * 1 +
    (smiles.count 'O' : ℤ) * 16 + (smiles.count 'N' : ℤ) * 14

/-- `MolecularService._calculate_properties_fallback` with the MD5
hexdigest abstracted as `md5`. -/
def calculate_properties_fallback (md5 : List Char → List Char)
    (smiles : List Char) : FallbackProps :=
  let hashHex := ((md5 smiles).take 14).map Char.toUpper
  let carbon := fallbackCarbonCount smiles
  let hydrogen : ℤ := smiles.count 'H'
  let oxygen : ℤ := smiles.count 'O'
  let nitrogen : ℤ := smiles.count 'N'
  let parts : List (List Char) :=
    (if 0 < carbon then [formulaPart 'C' carbon] else []) ++
    (if 0 < hydrogen then [formulaPart 'H' hydrogen] else []) ++
    (if 0 < oxygen then [formulaPart 'O' oxygen] else []) ++
    (if 0 < nitrogen then [formulaPart 'N' nitrogen] else [])
  let formula := if parts.isEmpty then "Unknown".data else parts.flatten
  { canonical_smiles := smiles
    molecular_formula := formula
    molecular_weight := pyRoundTo 2 (fallbackBaseWeight smiles : ℚ)
    inchi := "InChI=1S/".data ++ formula
    inchikey := "FAKE-".data ++ hashHex
    logp := 0
    tpsa := 0
    hydrogen_bond_donors := 0
    hydrogen_bond_acceptors := 0
    rotatable_bonds := 0
    heavy_atom_count := carbon + oxygen + nitrogen
    formal_charge := 0
    atom_count := carbon + hydrogen + oxygen + nitrogen
    ring_count := 0
    aromatic_rings := if smiles.contains 'c' then 1 else 0
    calculation_source := "fallback"
    note := "Properties estimated - RDKit not available" }

/-! ### Helper lemmas -/

theorem splitDash_ne_nil (cs : List Char) : splitDash cs ≠ [] := by
  induction cs with
  | nil => simp [splitDash]
  | cons c t ih =>
    simp only [splitDash]
    split
    · simp
    · cases h : splitDash t with
      | nil => simp
      | cons g gs => simp

theorem joinDash_splitDash (cs : List Char) : joinDash (splitDash cs) = cs := by
  induction cs with
  | nil => simp [splitDash, joinDash]
  | cons c t ih =>
    simp only [splitDash]
    split
    · rename_i hc
      subst hc
      cases h : splitDash t with
      | nil => exact absurd h (splitDash_ne_nil t)
      | cons g gs =>
        rw [h] at ih
        simp [joinDash, ih]
    · cases h : splitDash t with
      | nil => exact absurd h (splitDash_ne_nil t)
      | cons g gs =>
        rw [h] at ih
        cases gs with
        | nil => simp_all [joinDash]
        | cons g2 gs2 => simp_all [joinDash]

theorem splitDash_append_of_noDash (a rest : List Char) (ha : '-' ∉ a) :
    splitDash (a ++ '-' :: rest) = a :: splitDash rest := by
  induction a with
  | nil => simp [splitDash]
  | cons c t ih =>
    have hc : c ≠ '-' := fun h => ha (h ▸ List.mem_cons_self c t)
    have ht : '-' ∉ t := fun h => ha (List.mem_cons_of_mem c h)
    simp only [List.cons_append, splitDash, if_neg hc, List.append_eq]
    rw [ih ht]

theorem splitDash_of_noDash (a : List Char) (ha : '-' ∉ a) : splitDash a = [a] := by
  induction a with
  | nil => simp [splitDash]
  | cons c t ih =>
    have hc : c ≠ '-' := fun h => ha (h ▸ List.mem_cons_self c t)
    have ht : '-' ∉ t := fun h => ha (List.mem_cons_of_mem c h)
    simp only [splitDash, if_neg hc, ih ht]

theorem dash_not_digit : Char.isDigit '-' = false := by decide

theorem noDash_of_all_digit {a : List Char} (h : a.all Char.isDigit = true) : '-' ∉ a := by
  intro hm
  have := List.all_eq_true.mp h '-' hm
  simp [dash_not_digit] at this

theorem takeWhile_digits_append (a rest : List Char) (ha : a.all Char.isDigit = true) :
    (a ++ '-' :: rest).takeWhile Char.isDigit = a ∧
      (a ++ '-' :: rest).dropWhile Char.isDigit = '-' :: rest := by
  induction a with
  | nil => simp [List.takeWhile, List.dropWhile, dash_not_digit]
  | cons c t ih =>
    simp only [List.all_cons, Bool.and_eq_true] at ha
    obtain ⟨hc, ht⟩ := ha
    obtain ⟨ih1, ih2⟩ := ih ht
    constructor
    · simp [List.takeWhile_cons, hc, ih1]
    · simp [List.dropWhile_cons, hc, ih2]

theorem takeWhile_digits_self (a : List Char) (ha : a.all Char.isDigit = true) :
    a.takeWhile Char.isDigit = a ∧ a.dropWhile Char.isDigit = [] := by
  induction a with
  | nil => simp
  | cons c t ih =>
    simp only [List.all_cons, Bool.and_eq_true] at ha
    obtain ⟨hc, ht⟩ := ha
    obtain ⟨ih1, ih2⟩ := ih ht
    constructor
    · simp [List.takeWhile_cons, hc, ih1]
    · simp [List.dropWhile_cons, hc, ih2]

theorem all_digit_takeWhile (cs : List Char) :
    (cs.takeWhile Char.isDigit).all Char.isDigit = true :=
  List.all_eq_true.mpr fun _ hx => List.mem_takeWhile_imp hx

/-- The anchored registry-number scan succeeds exactly on three
hyphen-separated digit runs of the demanded lengths. -/
theorem casScan_iff (lo hi : Nat) (cs : List Char) :
    casScan lo hi cs = true ↔
      ∃ a b c : List Char, cs = a ++ '-' :: (b ++ '-' :: c) ∧
        a.all Char.isDigit = true ∧ lo ≤ a.length ∧ a.length ≤ hi ∧
        b.all Char.isDigit = true ∧ b.length = 2 ∧
        c.all Char.isDigit = true ∧ c.length = 1 := by
  constructor
  · intro h
    unfold casScan at h
    split at h
    · rename_i t1 h1
      split at h
      · rename_i t2 h2
        simp only [Bool.and_eq_true, decide_eq_true_eq, beq_iff_eq,
          List.isEmpty_iff] at h
        obtain ⟨⟨⟨⟨hlo, hhi⟩, hb2⟩, hc1⟩, hrest⟩ := h
        refine ⟨cs.takeWhile Char.isDigit, t1.takeWhile Char.isDigit,
          t2.takeWhile Char.isDigit, ?_, all_digit_takeWhile cs, hlo, hhi,
          all_digit_takeWhile t1, hb2, all_digit_takeWhile t2, hc1⟩
        have e1 : cs.takeWhile Char.isDigit ++ cs.dropWhile Char.isDigit = cs :=
          List.takeWhile_append_dropWhile _ _
        have e2 : t1.takeWhile Char.isDigit ++ t1.dropWhile Char.isDigit = t1 :=
          List.takeWhile_append_dropWhile _ _
        have e3 : t2.takeWhile Char.isDigit ++ t2.dropWhile Char.isDigit = t2 :=
          List.takeWhile_append_dropWhile _ _
        rw [hrest, List.append_nil] at e3
        rw [h2] at e2
        rw [e3, e2, ← h1]
        exact e1.symm
      · exact absurd h (by simp)
    · exact absurd h (by simp)
  · rintro ⟨a, b, c, rfl, ha, hlo, hhi, hb, hb2, hc, hc1⟩
    obtain ⟨ta, da⟩ := takeWhile_digits_append a (b ++ '-' :: c) ha
    obtain ⟨tb, db⟩ := takeWhile_digits_append b c hb
    obtain ⟨tc, dc⟩ := takeWhile_digits_self c hc
    unfold casScan
    rw [da]
    simp only
    rw [db]
    simp only
    rw [ta, tb, tc, dc]
    simp [hlo, hhi, hb2, hc1]

theorem pyIsDigit_iff (cs : List Char) :
    pyIsDigit cs = true ↔ cs ≠ [] ∧ cs.all Char.isDigit = true := by
  simp [pyIsDigit, List.isEmpty_iff]

/-- The split-based validator accepts exactly three hyphen-separated digit
runs with first and middle length at least two and final length one. -/
theorem validate_cas_format_iff (cs : List Char) :
    validate_cas_format cs = true ↔
      ∃ a b c : List Char, cs = a ++ '-' :: (b ++ '-' :: c) ∧
        a.all Char.isDigit = true ∧ 2 ≤ a.length ∧
        b.all Char.isDigit = true ∧ 2 ≤ b.length ∧
        c.all Char.isDigit = true ∧ c.length = 1 := by
  constructor
  · intro h
    unfold validate_cas_format at h
    split at h
    · rename_i a b c hsplit
      split at h
      · rename_i hdig
        simp only [Bool.and_eq_true] at hdig
        obtain ⟨⟨hda, hdb⟩, hdc⟩ := hdig
        obtain ⟨-, ha⟩ := (pyIsDigit_iff a).mp hda
        obtain ⟨-, hb⟩ := (pyIsDigit_iff b).mp hdb
        obtain ⟨-, hc⟩ := (pyIsDigit_iff c).mp hdc
        split at h
        · exact absurd h (by simp)
        · rename_i hlen
          simp only [Bool.or_eq_true, decide_eq_true_eq, not_or] at hlen
          obtain ⟨⟨h1, h2⟩, h3⟩ := hlen
          have hjoin := joinDash_splitDash cs
          rw [hsplit] at hjoin
          simp only [joinDash] at hjoin
          exact ⟨a, b, c, hjoin.symm, ha, by omega, hb, by omega, hc, by omega⟩
      · exact absurd h (by simp)
    · exact absurd h (by simp)
  · rintro ⟨a, b, c, rfl, ha, ha2, hb, hb2, hc, hc1⟩
    have hna : '-' ∉ a := noDash_of_all_digit ha
    have hnb : '-' ∉ b := noDash_of_all_digit hb
    have hnc : '-' ∉ c := noDash_of_all_digit hc
    have hsplit : splitDash (a ++ '-' :: (b ++ '-' :: c)) = [a, b, c] := by
      rw [splitDash_append_of_noDash a _ hna, splitDash_append_of_noDash b _ hnb,
        splitDash_of_noDash c hnc]
    have hae : a ≠ [] := by rintro rfl; simp at ha2
    have hbe : b ≠ [] := by rintro rfl; simp at hb2
    have hce : c ≠ [] := by rintro rfl; simp at hc1
    have hda : pyIsDigit a = true := (pyIsDigit_iff a).mpr ⟨hae, ha⟩
    have hdb : pyIsDigit b = true := (pyIsDigit_iff b).mpr ⟨hbe, hb⟩
    have hdc : pyIsDigit c = true := (pyIsDigit_iff c).mpr ⟨hce, hc⟩
    have hl : (decide (a.length < 2) || decide (b.length < 2) ||
        decide (c.length ≠ 1)) = false := by
      simp only [Bool.or_eq_false_iff, decide_eq_false_iff_not]
      omega
    unfold validate_cas_format
    rw [hsplit]
    simp [hda, hdb, hdc, hl]
    omega

theorem digitChar_isDigit {d : Nat} (h : d < 10) : (Nat.digitChar d).isDigit = true := by
  interval_cases d <;> decide

theorem natDecChars_all_digit (n : Nat) : (natDecChars n).all Char.isDigit = true := by
  unfold natDecChars
  split
  · decide
  · refine List.all_eq_true.mpr fun c hc => ?_
    rw [List.mem_reverse, List.mem_map] at hc
    obtain ⟨d, hd, rfl⟩ := hc
    exact digitChar_isDigit (Nat.digits_lt_base (by norm_num) hd)

theorem natDecChars_ne_nil (n : Nat) : natDecChars n ≠ [] := by
  unfold natDecChars
  split
  · simp
  · rename_i h
    simp only [ne_eq, List.reverse_eq_nil_iff, List.map_eq_nil_iff]
    exact Nat.digits_ne_nil_iff_ne_zero.mpr h

theorem natDecChars_length (n : Nat) (hn : n ≠ 0) :
    (natDecChars n).length = Nat.log 10 n + 1 := by
  unfold natDecChars
  rw [if_neg hn]
  simp [Nat.digits_len 10 n (by norm_num) hn]

theorem natDecChars_len_le {n k : Nat} (hk : 0 < k) (h : n < 10 ^ k) :
    (natDecChars n).length ≤ k := by
  by_cases hn : n = 0
  · subst hn
    simpa [natDecChars] using hk
  · rw [natDecChars_length n hn]
    have := Nat.log_lt_of_lt_pow hn h
    omega

theorem natDecChars_len_one {n : Nat} (h : n < 10) : (natDecChars n).length = 1 := by
  by_cases hn : n = 0
  · subst hn
    simp [natDecChars]
  · rw [natDecChars_length n hn]
    have : Nat.log 10 n = 0 := Nat.log_eq_zero_iff.mpr (Or.inl h)
    omega

theorem pyFormatPad_all_digit (w n : Nat) : (pyFormatPad w n).all Char.isDigit = true := by
  unfold pyFormatPad
  rw [List.all_append, Bool.and_eq_true]
  refine ⟨?_, natDecChars_all_digit n⟩
  refine List.all_eq_true.mpr fun c hc => ?_
  rw [List.eq_of_mem_replicate hc]
  decide

theorem pyFormatPad_length {w n : Nat} (h : (natDecChars n).length ≤ w) :
    (pyFormatPad w n).length = w := by
  unfold pyFormatPad
  rw [List.length_append, List.length_replicate]
  omega

/-- The pseudo-CAS built by `_generate_fallback_cas` always has segment
lengths 6, 2 and 1, so it satisfies the registry-number grammar for any
lower bound up to 6. -/
theorem fallbackCasChars_scan (lo : Nat) (hlo : lo ≤ 6) (h : List Char) :
    casScan lo 7 (fallbackCasChars h) = true := by
  have h6 : hexVal (h.take 6) % 1000000 < 10 ^ 6 := by
    have e : (10 : Nat) ^ 6 = 1000000 := by norm_num
    rw [e]
    exact Nat.mod_lt _ (by norm_num)
  have h2 : hexVal ((h.drop 6).take 2) % 100 < 10 ^ 2 := by
    have e : (10 : Nat) ^ 2 = 100 := by norm_num
    rw [e]
    exact Nat.mod_lt _ (by norm_num)
  have l6 : (pyFormatPad 6 (hexVal (h.take 6) % 1000000)).length = 6 :=
    pyFormatPad_length (natDecChars_len_le (by norm_num) h6)
  have l2 : (pyFormatPad 2 (hexVal ((h.drop 6).take 2) % 100)).length = 2 :=
    pyFormatPad_length (natDecChars_len_le (by norm_num) h2)
  have l1 : (natDecChars (hexVal ((h.drop 8).take 1) % 10)).length = 1 :=
    natDecChars_len_one (Nat.mod_lt _ (by norm_num))
  refine (casScan_iff lo 7 (fallbackCasChars h)).mpr
    ⟨pyFormatPad 6 (hexVal (h.take 6) % 1000000),
      pyFormatPad 2 (hexVal ((h.drop 6).take 2) % 100),
      natDecChars (hexVal ((h.drop 8).take 1) % 10), ?_,
      pyFormatPad_all_digit _ _, ?_, ?_, pyFormatPad_all_digit _ _, l2,
      natDecChars_all_digit _, l1⟩
  · simp [fallbackCasChars]
  · omega
  · omega

theorem fallbackCasChars_ne_nil (h : List Char) : fallbackCasChars h ≠ [] := by
  unfold fallbackCasChars pyFormatPad
  simp

/-- A scan success forces a non-empty string. -/
theorem ne_nil_of_casScan {lo hi : Nat} {cs : List Char} (h : casScan lo hi cs = true) :
    cs ≠ [] := by
  obtain ⟨a, b, c, rfl, -⟩ := (casScan_iff lo hi cs).mp h
  simp

theorem is_valid_cas_eq_scan (cs : List Char) : is_valid_cas cs = casScan 1 7 cs := by
  unfold is_valid_cas
  cases hc : casScan 1 7 cs
  · simp
  · have := ne_nil_of_casScan hc
    simp [List.isEmpty_iff, this]

/-- The record every failure path of `_try_pubchem` returns. -/
def pubchemMiss : CasResult := { cas_number := none, source := "pubchem" }

/-- The empty low-confidence record of `get_cas_from_smiles`. -/
def chainMiss : CasResult := { cas_number := none, source := "none", confidence := some "low" }

theorem try_pubchem_cases (w : PubWorld) (s : List Char) :
    try_pubchem w s = pubchemMiss ∨
      ∃ c cid ik, is_valid_cas c = true ∧
        try_pubchem w s =
          { cas_number := some c, source := "pubchem", confidence := some "high",
            cid := cid, inchi_key := ik } := by
  unfold try_pubchem
  split
  · exact Or.inl rfl
  split
  · split
    · exact Or.inl rfl
    · split
      · split
        · exact Or.inl rfl
        · split
          · split
            · exact Or.inl rfl
            · rename_i c rest hfilter
              refine Or.inr ⟨c, _, _, ?_, rfl⟩
              have hmem : c ∈ w.synonyms.filter is_valid_cas := by
                rw [hfilter]
                exact List.mem_cons_self c rest
              exact List.of_mem_filter hmem
          · exact Or.inl rfl
      · exact Or.inl rfl
  · exact Or.inl rfl

theorem generate_fallback_cas_cases (md5 : List Char → List Char) (s : List Char) :
    generate_fallback_cas md5 s = { cas_number := none, source := "internal_fallback" } ∨
      generate_fallback_cas md5 s =
        { cas_number := some (fallbackCasChars (md5 s)), source := "internal_fallback",
          confidence := some "very_low",
          note := some "Generated internally - verify with external sources" } := by
  unfold generate_fallback_cas
  split
  · exact Or.inr rfl
  · exact Or.inl rfl

theorem list_all_sub {p : Char → Bool} {cs whole : List Char}
    (hall : whole.all p = true) (hsub : ∀ c ∈ cs, c ∈ whole) : cs.all p = true :=
  List.all_eq_true.mpr fun c hc => List.all_eq_true.mp hall c (hsub c hc)

/-- If the digest really is a 32-character hex digest, the generator takes
its success branch. -/
theorem generate_fallback_cas_of_digest {md5 : List Char → List Char} {s : List Char}
    (h : isHexDigest (md5 s) = true) :
    generate_fallback_cas md5 s =
      { cas_number := some (fallbackCasChars (md5 s)), source := "internal_fallback",
        confidence := some "very_low",
        note := some "Generated internally - verify with external sources" } := by
  unfold isHexDigest at h
  rw [Bool.and_eq_true, beq_iff_eq] at h
  obtain ⟨hlen, hall⟩ := h
  have hx : ∀ cs : List Char, cs ≠ [] → (∀ c ∈ cs, c ∈ md5 s) → pyIntHexOk cs = true := by
    intro cs hne hsub
    unfold pyIntHexOk
    rw [Bool.and_eq_true]
    exact ⟨by simpa [List.isEmpty_iff] using hne, list_all_sub hall hsub⟩
  have h1 : pyIntHexOk ((md5 s).take 6) = true := by
    refine hx _ ?_ fun c hc => List.mem_of_mem_take hc
    have hl : ((md5 s).take 6).length = 6 := by
      rw [List.length_take]
      omega
    intro he
    rw [he] at hl
    simp at hl
  have h2 : pyIntHexOk (((md5 s).drop 6).take 2) = true := by
    refine hx _ ?_ fun c hc => List.mem_of_mem_drop (List.mem_of_mem_take hc)
    have hl : (((md5 s).drop 6).take 2).length = 2 := by
      rw [List.length_take, List.length_drop]
      omega
    intro he
    rw [he] at hl
    simp at hl
  have h3 : pyIntHexOk (((md5 s).drop 8).take 1) = true := by
    refine hx _ ?_ fun c hc => List.mem_of_mem_drop (List.mem_of_mem_take hc)
    have hl : (((md5 s).drop 8).take 1).length = 1 := by
      rw [List.length_take, List.length_drop]
      omega
    intro he
    rw [he] at hl
    simp at hl
  unfold generate_fallback_cas
  rw [h1, h2, h3]
  rfl

/-- Every outcome of the resolution chain: the empty low-confidence
record, a gated PubChem hit, or the synthetic fallback record. -/
theorem get_cas_from_smiles_cases (md5 : List Char → List Char) (w : PubWorld)
    (s : List Char) :
    get_cas_from_smiles md5 w s = chainMiss ∨
      (∃ c cid ik, is_valid_cas c = true ∧
        get_cas_from_smiles md5 w s =
          { cas_number := some c, source := "pubchem", confidence := some "high",
            cid := cid, inchi_key := ik }) ∨
      get_cas_from_smiles md5 w s =
        { cas_number := some (fallbackCasChars (md5 (pyStrip s))),
          source := "internal_fallback", confidence := some "very_low",
          note := some "Generated internally - verify with external sources" } := by
  unfold get_cas_from_smiles
  split
  · exact Or.inl rfl
  · simp only [chainLoop, okSource]
    rcases try_pubchem_cases w (pyStrip s) with hp | ⟨c, cid, ik, hval, hp⟩
    · rw [hp]
      have : casTruthy pubchemMiss.cas_number = false := rfl
      rw [this]
      simp only [Bool.false_eq_true, if_false]
      have : casTruthy (try_chemspider (pyStrip s)).cas_number = false := rfl
      rw [this]
      simp only [Bool.false_eq_true, if_false]
      have : casTruthy (try_nist (pyStrip s)).cas_number = false := rfl
      rw [this]
      simp only [Bool.false_eq_true, if_false]
      have : casTruthy (try_opsin (pyStrip s)).cas_number = false := rfl
      rw [this]
      simp only [Bool.false_eq_true, if_false]
      rcases generate_fallback_cas_cases md5 (pyStrip s) with hf | hf
      · rw [hf]
        have : casTruthy (CasResult.cas_number
            { cas_number := none, source := "internal_fallback" }) = false := rfl
        rw [this]
        simp only [Bool.false_eq_true, if_false]
        exact Or.inl rfl
      · rw [hf]
        have hne : fallbackCasChars (md5 (pyStrip s)) ≠ [] :=
          fallbackCasChars_ne_nil _
        have : casTruthy (some (fallbackCasChars (md5 (pyStrip s)))) = true := by
          unfold casTruthy
          simpa [List.isEmpty_iff] using hne
        simp only [this, if_true]
        exact Or.inr (Or.inr (by trivial))
    · rw [hp]
      have hcne : c ≠ [] := by
        rw [is_valid_cas_eq_scan] at hval
        exact ne_nil_of_casScan hval
      have : casTruthy (some c) = true := by
        unfold casTruthy
        simpa [List.isEmpty_iff] using hcne
      simp only [this, if_true]
      exact Or.inr (Or.inl ⟨c, cid, ik, hval, rfl⟩)

/-- Exact Python `round` on an integer value is the identity, at any
number of digits. -/
theorem pyRoundTo_intCast (k : Nat) (z : ℤ) : pyRoundTo k (z : ℚ) = z := by
  unfold pyRoundTo pyRoundHalfEven
  have e : (z : ℚ) * 10 ^ k = ((z * 10 ^ k : ℤ) : ℚ) := by
    push_cast
    ring
  rw [e]
  rw [Int.floor_intCast]
  simp only [sub_self]
  rw [if_pos (by norm_num)]
  rw [div_eq_iff (by positivity)]
  push_cast
  ring

theorem chainLoop_skip_raising (s : List Char) (e : String)
    (pre post : List (List Char → Except String CasResult)) :
    chainLoop s (pre ++ raisingSource e :: post) = chainLoop s (pre ++ post) := by
  induction pre with
  | nil => simp [chainLoop, raisingSource]
  | cons f rest ih =>
    simp only [List.cons_append, chainLoop]
    cases f s with
    | error e2 => exact ih
    | ok r =>
      by_cases h : casTruthy r.cas_number = true
      · simp [h]
      · simp only [Bool.not_eq_true] at h
        simp [h, ih]

/-! ### Claim theorems -/

/-- Claim C1 (counterexample): the claim says the format validators reject
every string whose first segment has a single digit and every string whose
middle segment has more than two digits; but `_is_valid_cas` accepts
`1-23-4` (its regex allows a 1-digit first segment) and
`_validate_cas_format` accepts `12-345-6` (it only bounds the middle
segment from below), while the spec grammar `\d{2,7}-\d{2}-\d` rejects
both. -/
theorem claim_C1_counterexample :
    is_valid_cas "1-23-4".data = true ∧ validate_cas_format "12-345-6".data = true ∧
      casScan 2 7 "1-23-4".data = false ∧ casScan 2 7 "12-345-6".data = false := by
  decide

/-- Claim C1 (amended): `_is_valid_cas` accepts a string iff it is three
hyphen-separated all-digit segments of lengths 1 to 7, exactly 2, and
exactly 1; `_validate_cas_format` accepts iff the segments are all-digit
with first and middle segments of length at least 2 (with no upper bound)
and final segment exactly 1. -/
theorem claim_C1_amended (cs : List Char) :
    (is_valid_cas cs = true ↔
      ∃ a b c : List Char, cs = a ++ '-' :: (b ++ '-' :: c) ∧
        a.all Char.isDigit = true ∧ 1 ≤ a.length ∧ a.length ≤ 7 ∧
        b.all Char.isDigit = true ∧ b.length = 2 ∧
        c.all Char.isDigit = true ∧ c.length = 1) ∧
    (validate_cas_format cs = true ↔
      ∃ a b c : List Char, cs = a ++ '-' :: (b ++ '-' :: c) ∧
        a.all Char.isDigit = true ∧ 2 ≤ a.length ∧
        b.all Char.isDigit = true ∧ 2 ≤ b.length ∧
        c.all Char.isDigit = true ∧ c.length = 1) := by
  constructor
  · rw [is_valid_cas_eq_scan]
    exact casScan_iff 1 7 cs
  · exact validate_cas_format_iff cs

/-- Claim C2 (counterexample): with the PubChem synonym list containing
`1-23-4` — a string the chain's gate `_is_valid_cas` accepts — the
resolution chain returns a registry number that does not match the spec
grammar `\d{2,7}-\d{2}-\d`. -/
theorem claim_C2_counterexample :
    (get_cas_from_smiles (fun _ => "0123456789abcdef0123456789abcdef".data)
        { postRaises := false, postStatus := 200, props := [(some 1, some [])],
          synRaises := false, synStatus := 200,
          synonyms := ["1-23-4".data] } "CCO".data).cas_number = some "1-23-4".data ∧
      casScan 2 7 "1-23-4".data = false := by
  decide

/-- Claim C2 (amended): every registry number the resolution chain returns
matches `\d{1,7}-\d{2}-\d` — the gate actually applied to externally
retrieved numbers — and the pseudo-number built from the descriptor hash
always has segments of exactly 6, 2 and 1 digits, hence matches the spec
grammar `\d{2,7}-\d{2}-\d`. -/
theorem claim_C2_amended :
    (∀ (md5 : List Char → List Char) (w : PubWorld) (s c : List Char),
      (get_cas_from_smiles md5 w s).cas_number = some c → casScan 1 7 c = true) ∧
    (∀ h : List Char, casScan 2 7 (fallbackCasChars h) = true) := by
  constructor
  · intro md5 w s c hc
    rcases get_cas_from_smiles_cases md5 w s with hr | ⟨c2, cid, ik, hval, hr⟩ | hr
    · rw [hr] at hc
      exact absurd hc (by simp [chainMiss])
    · rw [hr] at hc
      simp only [CasResult.cas_number, Option.some.injEq] at hc
      subst hc
      rw [← is_valid_cas_eq_scan]
      exact hval
    · rw [hr] at hc
      simp only [CasResult.cas_number, Option.some.injEq] at hc
      subst hc
      exact fallbackCasChars_scan 1 (by norm_num) _
  · exact fun h => fallbackCasChars_scan 2 (by norm_num) h

/-- Claim C4: for a real MD5 digest (32 hexadecimal characters) the
synthetic fallback generator never fails and never returns `None`: on any
non-empty descriptor it produces a non-empty registry number. -/
theorem claim_C4_fallback_total (md5 : List Char → List Char) (s : List Char)
    (hmd5 : isHexDigest (md5 s) = true) (_hs : s ≠ []) :
    ∃ c, (generate_fallback_cas md5 s).cas_number = some c ∧ c ≠ [] := by
  rw [generate_fallback_cas_of_digest hmd5]
  exact ⟨fallbackCasChars (md5 s), rfl, fallbackCasChars_ne_nil _⟩

/-- Claim C4 witness at the descriptor `CCO` and a concrete digest. -/
theorem claim_C4_witness :
    ∃ c, (generate_fallback_cas (fun _ => "0123456789abcdef0123456789abcdef".data)
      "CCO".data).cas_number = some c ∧ c ≠ [] :=
  claim_C4_fallback_total (fun _ => "0123456789abcdef0123456789abcdef".data)
    "CCO".data rfl (by simp)

/-- Claim C5: a raising source is caught and skipped — the chain's result
is the same as with that source deleted, so an exception never propagates
and the loop proceeds to the next source in order; and for any behavior of
the network the chain returns a result record from one of its sources. -/
theorem claim_C5_chain_error_handling :
    (∀ (s : List Char) (e : String)
      (pre post : List (List Char → Except String CasResult)),
      chainLoop s (pre ++ raisingSource e :: post) = chainLoop s (pre ++ post)) ∧
    (∀ (md5 : List Char → List Char) (w : PubWorld) (s : List Char),
      (get_cas_from_smiles md5 w s).source ∈
        (["none", "pubchem", "internal_fallback"] : List String)) := by
  constructor
  · exact fun s e pre post => chainLoop_skip_raising s e pre post
  · intro md5 w s
    rcases get_cas_from_smiles_cases md5 w s with hr | ⟨c, cid, ik, -, hr⟩ | hr <;>
      rw [hr] <;> simp [chainMiss]

/-- Claim C6: in every record the resolver produces, confidence is `high`
only when the registry number came from the PubChem source, and whenever
the record came from the synthetic fallback its confidence is `very_low`. -/
theorem claim_C6_confidence (md5 : List Char → List Char) (w : PubWorld) (s : List Char) :
    ((get_cas_from_smiles md5 w s).confidence = some "high" →
      (get_cas_from_smiles md5 w s).source = "pubchem") ∧
    ((get_cas_from_smiles md5 w s).source = "internal_fallback" →
      (get_cas_from_smiles md5 w s).confidence = some "very_low") := by
  rcases get_cas_from_smiles_cases md5 w s with hr | ⟨c, cid, ik, -, hr⟩ | hr <;>
    rw [hr] <;> constructor <;> intro h <;> simp_all [chainMiss]

/-- Claim C7: the synthetic pseudo-registry-number is a deterministic
function of the canonical descriptor: descriptors with equal canonical
forms get the identical fallback number, and the whole resolution chain
(for the same network behavior) gives identical results. -/
theorem claim_C7_determinism (md5 : List Char → List Char) (w : PubWorld)
    (s1 s2 : List Char) (h : canonicalize_smiles s1 = canonicalize_smiles s2) :
    generate_fallback_cas md5 (pyStrip s1) = generate_fallback_cas md5 (pyStrip s2) ∧
      get_cas_from_smiles md5 w s1 = get_cas_from_smiles md5 w s2 := by
  unfold canonicalize_smiles at h
  rw [Option.some.injEq] at h
  constructor
  · rw [h]
  · unfold get_cas_from_smiles
    have e1 : (s1.isEmpty || (pyStrip s1).isEmpty) = (pyStrip s1).isEmpty := by
      cases s1
      · rfl
      · rfl
    have e2 : (s2.isEmpty || (pyStrip s2).isEmpty) = (pyStrip s2).isEmpty := by
      cases s2
      · rfl
      · rfl
    rw [e1, e2, h]

/-- Claim C7 witness: two descriptors differing only in surrounding
whitespace canonicalize identically and get the identical synthetic
number and chain result. -/
theorem claim_C7_witness :
    generate_fallback_cas (fun _ => "0123456789abcdef0123456789abcdef".data)
        (pyStrip " CCO".data) =
      generate_fallback_cas (fun _ => "0123456789abcdef0123456789abcdef".data)
        (pyStrip "CCO ".data) ∧
    get_cas_from_smiles (fun _ => "0123456789abcdef0123456789abcdef".data)
        { postRaises := true, postStatus := 0, props := [], synRaises := true,
          synStatus := 0, synonyms := [] } " CCO".data =
      get_cas_from_smiles (fun _ => "0123456789abcdef0123456789abcdef".data)
        { postRaises := true, postStatus := 0, props := [], synRaises := true,
          synStatus := 0, synonyms := [] } "CCO ".data :=
  claim_C7_determinism (fun _ => "0123456789abcdef0123456789abcdef".data)
    { postRaises := true, postStatus := 0, props := [], synRaises := true,
      synStatus := 0, synonyms := [] } " CCO".data "CCO ".data rfl

/-- Claim C3: in molecular_service.py the def of
`calculate_molecular_properties` sits at column 0 — module level, outside
the class — and `_calculate_properties_fallback`, `optimize_structure`,
`validate_structure`, `convert_format` and `get_compound_summary` are the
run of indented defs nested in its body, so the class suite holds only
`__init__` and `_initialize_rdkit`, and invoking any property-calculation
or summary operation on the `molecular_service` instance raises
`AttributeError` for every input. -/
theorem claim_C3_service_structure :
    classBodyDefs = ["__init__", "_initialize_rdkit"] ∧
    moduleLevelDefs = ["calculate_molecular_properties"] ∧
    nestedInFirstModuleDef =
      ["_calculate_properties_fallback", "optimize_structure", "validate_structure",
        "convert_format", "get_compound_summary"] ∧
    ∀ arg : List Char,
      invokeMolecularService "calculate_molecular_properties" arg =
        .error (.attrError "MolecularService" "calculate_molecular_properties") ∧
      invokeMolecularService "_calculate_properties_fallback" arg =
        .error (.attrError "MolecularService" "_calculate_properties_fallback") ∧
      invokeMolecularService "optimize_structure" arg =
        .error (.attrError "MolecularService" "optimize_structure") ∧
      invokeMolecularService "validate_structure" arg =
        .error (.attrError "MolecularService" "validate_structure") ∧
      invokeMolecularService "convert_format" arg =
        .error (.attrError "MolecularService" "convert_format") ∧
      invokeMolecularService "get_compound_summary" arg =
        .error (.attrError "MolecularService" "get_compound_summary") :=
  ⟨rfl, rfl, rfl, fun _ => ⟨rfl, rfl, rfl, rfl, rfl, rfl⟩⟩

/-- Claim C8 (code evaluation): the `/calculate-properties` endpoint turns
empty and whitespace-only input into an HTTP 500 wrapping of the
validation message, and — because the service object has no
`calculate_molecular_properties` attribute — every non-empty input, such
as `CCO`, yields an HTTP 500 attribute error instead of the complete
result record the claim demands. -/
theorem claim_C8_endpoint_behavior :
    api_calculate_molecular_properties "".data =
      .httpError 500 "SMILES string is required" ∧
    api_calculate_molecular_properties "   ".data =
      .httpError 500 "SMILES string is required" ∧
    api_calculate_molecular_properties "CCO".data =
      .httpError 500
        "MolecularService object has no attribute calculate_molecular_properties" ∧
    ∀ smiles : List Char, ∃ st detail,
      api_calculate_molecular_properties smiles = .httpError st detail :=
  ⟨rfl, rfl, rfl, fun smiles => by
    unfold api_calculate_molecular_properties apiCalcTryBody
    by_cases hc : (smiles.isEmpty || (pyStrip smiles).isEmpty) = true
    · rw [if_pos hc]
      exact ⟨500, _, rfl⟩
    · rw [if_neg hc]
      exact ⟨500, _, rfl⟩⟩

/-- Claim C9: on the fallback-estimator path the estimated weight is an
exact integer, so the value produced by the code's `round(base_weight, 2)`
coincides with rounding at the 4-decimal precision the toolkit path uses
for molecular weight; `logp` and `tpsa` are likewise fixed at their
2-decimal roundings, and the property set is tagged with the fallback
calculation source. -/
theorem claim_C9_fallback_rounding (md5 : List Char → List Char) (s : List Char) :
    (calculate_properties_fallback md5 s).molecular_weight =
      pyRoundTo 4 ((fallbackBaseWeight s : ℚ)) ∧
    (calculate_properties_fallback md5 s).molecular_weight = (fallbackBaseWeight s : ℚ) ∧
    (calculate_properties_fallback md5 s).logp =
      pyRoundTo 2 ((calculate_properties_fallback md5 s).logp) ∧
    (calculate_properties_fallback md5 s).tpsa =
      pyRoundTo 2 ((calculate_properties_fallback md5 s).tpsa) ∧
    (calculate_properties_fallback md5 s).calculation_source = "fallback" := by
  have hmw : (calculate_properties_fallback md5 s).molecular_weight =
      pyRoundTo 2 ((fallbackBaseWeight s : ℚ)) := rfl
  have h2 : pyRoundTo 2 ((fallbackBaseWeight s : ℚ)) = (fallbackBaseWeight s : ℚ) :=
    pyRoundTo_intCast 2 (fallbackBaseWeight s)
  have h4 : pyRoundTo 4 ((fallbackBaseWeight s : ℚ)) = (fallbackBaseWeight s : ℚ) :=
    pyRoundTo_intCast 4 (fallbackBaseWeight s)
  have hlogp : (calculate_properties_fallback md5 s).logp = 0 := rfl
  have htpsa : (calculate_properties_fallback md5 s).tpsa = 0 := rfl
  have h0 : pyRoundTo 2 (0 : ℚ) = 0 := by
    simpa using pyRoundTo_intCast 2 0
  refine ⟨?_, ?_, ?_, ?_, rfl⟩
  · rw [hmw, h2, h4]
  · rw [hmw, h2]
  · rw [hlogp, h0]
  · rw [htpsa, h0]

/-- Claim C10: each specific-compound pattern containing parentheses
(acetic acid, aspirin, caffeine, ethyl acetate, isopropylamine) is applied
as a regex in which the parentheses group rather than match literally, so
it fails on the very SMILES string it names; in particular on the aspirin
SMILES both name guessers fall through to a later, less specific branch
(`Phenol` in chemical_utils, `Benzoic Acid Derivative` in the PubChem
service) instead of returning `Aspirin`. -/
theorem claim_C10_paren_patterns :
    reSearch "CC(=O)O$" "CC(=O)O".data = false ∧
    reSearch "CC(=O)Oc1ccccc1C(=O)O$" "CC(=O)Oc1ccccc1C(=O)O".data = false ∧
    reSearch "CN1C=NC2=C1C(=O)N(C(=O)N2C)C$" "CN1C=NC2=C1C(=O)N(C(=O)N2C)C".data = false ∧
    reSearch "CCOC(=O)C$" "CCOC(=O)C".data = false ∧
    reSearch "CC(N)C$" "CC(N)C".data = false ∧
    guess_compound_name_from_smiles "CC(=O)Oc1ccccc1C(=O)O".data = some "Phenol" ∧
    pubchem_guess_compound_name "CC(=O)Oc1ccccc1C(=O)O".data =
      some "Benzoic Acid Derivative" ∧
    guess_compound_name_from_smiles "CC(=O)Oc1ccccc1C(=O)O".data ≠ some "Aspirin" ∧
    pubchem_guess_compound_name "CC(=O)Oc1ccccc1C(=O)O".data ≠ some "Aspirin" := by
  refine ⟨rfl, rfl, rfl, rfl, rfl, rfl, rfl, ?_, ?_⟩ <;> decide
